import Mathlib

/-!
Verification of the job admission and asynchronous execution pipeline of the
teletran1 repository: the POST /act admission gate
(src/apps/core_api/routers/act.py), the Redis-Streams queue worker
(src/apps/queue_worker/main.py), the Postgres run ledger
(src/chad_memory/models.py, src/chad_memory/stores.py), and the
rate-limiting middleware (src/apps/core_api/middleware.py), shallowly
embedded in Lean.

Modelling conventions:
* Redis Stream messages are string-keyed dicts; numeric and boolean fields
  (`retry_count`, `max_steps`, `dry_run`) are modelled by their parsed
  values, an absent key by `none`.
* Wall-clock times from `time.time()` are modelled exactly by rationals;
  database timestamps are abstracted to `Nat`.
* Fallible I/O is modelled by `Except`, or by explicit outcome flags for the
  operations whose success the surrounding code does not control.
-/

namespace Teletran

/-! ## Run ledger: src/chad_memory/models.py and src/chad_memory/stores.py -/

/-- The request body of POST /act (act.py, class ActRequest), opaque to the
pipeline once stored as `request_payload`. -/
structure ActRequest where
  actor : String
  goal : String
  context : String
  max_steps : Nat
  timeout_seconds : Nat
  dry_run : Bool
  idempotency_key : Option String
  deriving DecidableEq, Repr

/-- A persisted row of the `runs` table (models.py, class Run): `trace_id` is
`unique=True, nullable=False`; `idempotency_key` is `unique=True` and
nullable; `actor`, `request_payload` and `status` are non-null. The JSONB
`request_payload` holds the admission request. -/
structure RunRow where
  id : String
  actor : String
  request_payload : ActRequest
  status : String
  autonomy_level : Option String
  trace_id : String
  idempotency_key : Option String
  completed_at : Option Nat
  error_message : Option String
  deriving DecidableEq, Repr

/-- The argument dict of `PostgresStore.save_run` (stores.py:495): a partial
set of column assignments. A `none` field models an absent key; the outer
`Option` on `idempotency_key` distinguishes an absent key from a key present
with value `None` (NULL). -/
structure RunData where
  id : String
  actor : Option String := none
  request_payload : Option ActRequest := none
  status : Option String := none
  autonomy_level : Option String := none
  trace_id : Option String := none
  idempotency_key : Option (Option String) := none
  completed_at : Option Nat := none
  error_message : Option String := none
  deriving DecidableEq, Repr

/-- The error `session.commit()` raises when a schema constraint is
violated. -/
inductive DBError
  | integrityError
  deriving DecidableEq, Repr

/-- The attribute assignment loop of `save_run`'s update path
(stores.py:516-519): each key present in the dict overwrites the row's
column, unconditionally. -/
def applyUpdate (r : RunRow) (d : RunData) : RunRow :=
  { r with
    id := d.id
    actor := d.actor.getD r.actor
    request_payload := d.request_payload.getD r.request_payload
    status := d.status.getD r.status
    autonomy_level := d.autonomy_level.orElse (fun _ => r.autonomy_level)
    trace_id := d.trace_id.getD r.trace_id
    idempotency_key :=
      match d.idempotency_key with
      | some v => v
      | none => r.idempotency_key
    completed_at := d.completed_at.orElse (fun _ => r.completed_at)
    error_message := d.error_message.orElse (fun _ => r.error_message) }

/-- `Run(**run_data)` on the insert path (stores.py:522): a new row needs the
non-null columns `actor`, `request_payload`, `status`, `trace_id` to be
present (otherwise commit violates NOT NULL). -/
def mkRow (d : RunData) : Option RunRow :=
  match d.actor, d.request_payload, d.status, d.trace_id with
  | some a, some p, some s, some tr =>
    some { id := d.id, actor := a, request_payload := p, status := s
           autonomy_level := d.autonomy_level
           trace_id := tr
           idempotency_key := d.idempotency_key.getD none
           completed_at := d.completed_at
           error_message := d.error_message }
  | _, _, _, _ => none

/-- The table constraints of models.py checked at commit: primary-key `id`,
unique `trace_id`, unique (nullable) `idempotency_key`. -/
def rowsOk (runs : List RunRow) : Prop :=
  (runs.map RunRow.id).Nodup ∧ (runs.map RunRow.trace_id).Nodup ∧
    (runs.filterMap RunRow.idempotency_key).Nodup

instance (runs : List RunRow) : Decidable (rowsOk runs) := by
  unfold rowsOk; infer_instance

/-- `PostgresStore.save_run` (stores.py:495-528): select the row by `id`; if
found, assign every provided attribute (no condition on the current status);
otherwise construct and add a new row; commit, which enforces the table
constraints (`rowsOk`). On an integrity error the transaction leaves the
table unchanged. -/
def save_run (runs : List RunRow) (d : RunData) : Except DBError (List RunRow) :=
  match runs.find? (fun r => r.id == d.id) with
  | some _ =>
    let runs' := runs.map (fun r => if r.id == d.id then applyUpdate r d else r)
    if rowsOk runs' then .ok runs' else .error .integrityError
  | none =>
    match mkRow d with
    | none => .error .integrityError
    | some row =>
      let runs' := runs ++ [row]
      if rowsOk runs' then .ok runs' else .error .integrityError

/-- `QueueWorker.update_job_status` (queue_worker/main.py:347-379): build the
update dict (`completed_at` only for the terminal statuses, `error_message`
only when an error is given) and hand it to `save_run`. `now` stands for
`datetime.utcnow()`. -/
def update_job_status (runs : List RunRow) (run_id : String) (status : String)
    (error : Option String) (now : Nat) : Except DBError (List RunRow) :=
  save_run runs
    { id := run_id
      status := some status
      completed_at := if status == "completed" || status == "failed" then some now else none
      error_message := error }

/-! ## Trace-id dependency: src/apps/core_api/deps.py -/

/-- The data `span.get_span_context()` exposes that `get_trace_id` reads. -/
structure SpanContext where
  trace_id : Nat
  valid : Bool
  deriving DecidableEq, Repr

/-- `format(n, "032x")`: lower-case hex, zero-padded to 32 characters. -/
def hex032 (n : Nat) : String :=
  let s := Nat.toDigits 16 n
  String.mk (List.replicate (32 - s.length) '0' ++ s)

/-- `get_trace_id` (deps.py:312-328): the current span's trace id in hex when
a span with a valid context is active, the constant `"no_trace"` otherwise.
`none` models `trace.get_current_span()` yielding no usable span. -/
def get_trace_id (span : Option SpanContext) : String :=
  match span with
  | some sc => if sc.valid then hex032 sc.trace_id else "no_trace"
  | none => "no_trace"

/-! ## Job messages and the admission gate: src/apps/core_api/routers/act.py -/

/-- The serialized-JSON `context` field of a stream message: absent (the
worker defaults it to `"{}"`), present and parseable, or present but not
valid JSON (`json.loads` raises). -/
inductive ContextField
  | absent
  | parseable (s : String)
  | unparseable (s : String)
  deriving DecidableEq, Repr

/-- A Job Message on the Redis Stream (spec section 6 wire format; the fields
`QueueWorker._parse_job` reads). `none` is an absent key. -/
structure JobMessage where
  run_id : Option String := none
  goal : Option String := none
  actor : Option String := none
  autonomy_level : Option String := none
  context : ContextField := .absent
  max_steps : Option Nat := none
  dry_run : Option Bool := none
  webhook_url : Option String := none
  created_at : Option String := none
  retry_count : Option Nat := none
  deriving DecidableEq, Repr

/-- Modelled from the spec: `queue_producer.enqueue`, called at act.py:346 but
imported from `apps.core_api.deps`, which defines no `get_queue_producer` and
no producer class; no producer implementation is among the repository
sources. Spec section 4.2 (`publish(message)` appends to the durable stream)
and section 6 (the Job Message wire format) fix its behaviour; a freshly
published message carries retry count 0, the counter being incremented only
by `requeue`. -/
def enqueue (queue : List JobMessage) (run_id goal actor autonomy_level : String)
    (context : String) (max_steps : Nat) (dry_run : Bool)
    (webhook_url : Option String) (created_at : Option String) : List JobMessage :=
  queue ++ [{ run_id := some run_id, goal := some goal, actor := some actor
              autonomy_level := some autonomy_level
              context := .parseable context
              max_steps := some max_steps
              dry_run := some dry_run
              webhook_url := webhook_url
              created_at := created_at
              retry_count := some 0 }]

/-- The idempotency check of POST /act (act.py:195-210). The body is a
commented-out TODO followed by `pass`: no store lookup happens and no
duplicate is ever detected, whatever the key. The result is the detected
existing run id — always `none` in the code as written. -/
def idempotency_check (_idempotency_key : Option String) : Option String := none

/-- Failures that can escape the background branch of `execute_action`. -/
inductive GateError
  | dbIntegrity
  | enqueueFailed
  deriving DecidableEq, Repr

/-- The 202 body returned by the background branch (act.py:366-373). -/
structure QueuedResponse where
  run_id : String
  trace_id : String
  status : String
  poll_url : String
  deriving DecidableEq, Repr

/-- The background branch of `execute_action` (act.py:324-373), entered after
policy validation with `requires_approval = False`: persist the Run in
`queued` status (act.py:335-343), then publish the Job Message
(act.py:346-355). `run_id` stands for the freshly generated
`str(uuid.uuid4())` of act.py:215 and `trace_id` for the `get_trace_id`
dependency value. `enqueue_ok` says whether the publish succeeds; the code
wraps neither call in a try/except, so a failing enqueue propagates after the
Run row is already committed, and the returned state keeps that row. -/
def execute_action_background (runs : List RunRow) (queue : List JobMessage)
    (req : ActRequest) (run_id trace_id autonomy_level : String)
    (webhook_url : Option String) (enqueue_ok : Bool) :
    Except GateError QueuedResponse × List RunRow × List JobMessage :=
  match save_run runs
      { id := run_id
        actor := some req.actor
        request_payload := some req
        status := some "queued"
        autonomy_level := some autonomy_level
        trace_id := some trace_id
        idempotency_key := some req.idempotency_key } with
  | .error _ => (.error .dbIntegrity, runs, queue)
  | .ok runs' =>
    if enqueue_ok then
      (.ok { run_id := run_id, trace_id := trace_id, status := "queued"
             poll_url := "/runs/" ++ run_id ++ "/status" },
       runs',
       enqueue queue run_id req.goal req.actor autonomy_level req.context
         req.max_steps req.dry_run webhook_url none)
    else
      (.error .enqueueFailed, runs', queue)

/-! ## Queue worker: src/apps/queue_worker/main.py -/

/-- The typed job dict that `_parse_job` returns (main.py:293-303). -/
structure Job where
  run_id : String
  goal : String
  actor : String
  autonomy_level : String
  context : String
  max_steps : Nat
  dry_run : Bool
  webhook_url : String
  created_at : Option String
  deriving DecidableEq, Repr

/-- `json.loads(message_data.get("context", "{}"))`: an absent field parses to
the empty dict, an unparseable field raises. -/
def ContextField.parse : ContextField → Option String
  | .absent => some "{}"
  | .parseable s => some s
  | .unparseable _ => none

/-- `QueueWorker._parse_job` (main.py:284-303): `run_id`, `goal`, `actor` and
`autonomy_level` are accessed by `[]` (KeyError when absent), the context
JSON must parse; the remaining fields fall back to defaults
(`max_steps` 10, `dry_run` false, `webhook_url` ""). -/
def parse_job (m : JobMessage) : Option Job :=
  match m.run_id, m.goal, m.actor, m.autonomy_level, m.context.parse with
  | some rid, some g, some a, some lvl, some ctx =>
    some { run_id := rid, goal := g, actor := a, autonomy_level := lvl
           context := ctx
           max_steps := m.max_steps.getD 10
           dry_run := m.dry_run.getD false
           webhook_url := m.webhook_url.getD ""
           created_at := m.created_at }
  | _, _, _, _, _ => none

/-- `QueueWorker._retry_job` (main.py:413-442): copy the raw message dict,
set `retry_count` to `retry_count + 1` leaving every other field (the
`run_id` included) unchanged, and XADD the copy to the main stream. -/
def retry_job (m : JobMessage) (retry_count : Nat) : JobMessage :=
  { m with retry_count := some (retry_count + 1) }

/-- What a webhook delivery attempt ends in. -/
inductive NotifyOutcome
  | delivered
  | failedLogged
  deriving DecidableEq, Repr

/-- Modelled from the spec: `chad_notifications.webhooks.WebhookNotifier`,
imported by the worker (main.py:31), is not among the repository sources.
Spec section 4.5: `notify(url, payload)` is best-effort with bounded
exponential-backoff retries; failure to deliver after exhausting retries is
logged but never raises into the caller. `delivered` says whether delivery
eventually succeeded. -/
def WebhookNotifier.notify (delivered : Bool) : NotifyOutcome :=
  if delivered then .delivered else .failedLogged

/-- The externally visible actions of one `_process_message` call: Run-ledger
status writes (`update_job_status`), webhook notifications, XADDs to the main
stream (`_retry_job`) and to the dead-letter stream (`_move_to_dlq`), and
XACK. -/
inductive Event
  | statusWrite (run_id : Option String) (status : String)
  | webhook (run_id : String) (success : Bool) (outcome : NotifyOutcome)
  | requeue (m : JobMessage)
  | dlq (m : JobMessage) (original_message_id : String)
  | ack (message_id : String)
  deriving DecidableEq, Repr

/-- Outcomes of the fallible operations on the happy path of
`_process_message`; `false` means the call raises and control jumps to the
`except` branch. The notifier cannot raise (spec section 4.5,
`WebhookNotifier.notify`); `webhook_delivered` says whether its delivery
succeeds. The XADD/save_run calls of the `except` branch itself are taken to
succeed as infrastructure; the deterministic KeyError that `_retry_job` and
`_move_to_dlq` hit on a message without the `run_id` key (main.py:436, 469)
is program logic and modelled explicitly in `retry_branch` and
`dead_letter_branch`. -/
structure WorkerEnv where
  update_running_ok : Bool := true
  exec_ok : Bool := true
  update_completed_ok : Bool := true
  webhook_delivered : Bool := true
  deriving DecidableEq, Repr

/-- Truthiness of the raw field in `message_data.get("webhook_url")`
(main.py:269): an absent key gives `None` and an empty string is falsy. -/
def webhookFieldTruthy (m : JobMessage) : Bool :=
  match m.webhook_url with
  | some s => !(s == "")
  | none => false

/-- The webhook step of `_process_message`'s dead-letter branch
(main.py:268-275): `job = self._parse_job(message_data)` runs again and so
raises once more on an unparseable message — leaving the message
unacknowledged — before the failure webhook is sent and the message
acknowledged. -/
def dead_letter_webhook (m : JobMessage) (message_id : String) (t1 : List Event)
    (env : WorkerEnv) : List Event × Bool :=
  match parse_job m with
  | none => (t1, false)
  | some job =>
    (t1 ++ [.webhook job.run_id false (WebhookNotifier.notify env.webhook_delivered),
            .ack message_id], true)

/-- The retry arm of the `except` branch: `_retry_job` (main.py:413-442)
XADDs the copy with the incremented count, then its `logger.info` call
evaluates `message_data["run_id"]` (main.py:436). On a message without that
key this raises KeyError after the XADD, so control never returns to
`_process_message` and the message is not acknowledged; otherwise the sleep
finishes, control returns, and `_process_message` acknowledges. -/
def retry_branch (m : JobMessage) (message_id : String) (t : List Event)
    (rc : Nat) : List Event × Bool :=
  match m.run_id with
  | some _ => (t ++ [.requeue (retry_job m rc), .ack message_id], true)
  | none => (t ++ [.requeue (retry_job m rc)], false)

/-- The dead-letter arm of the `except` branch (main.py:258-275):
`_move_to_dlq` (main.py:444-472) XADDs to the dead-letter stream, then its
`logger.error` call evaluates `message_data["run_id"]` (main.py:469) — on a
message without that key this raises KeyError after the XADD, aborting
before the `failed` status write and the acknowledgment. Otherwise
`_process_message` persists status `failed`, runs `dead_letter_webhook`
when the raw `webhook_url` field is truthy, and acknowledges. -/
def dead_letter_branch (m : JobMessage) (message_id : String) (t : List Event)
    (env : WorkerEnv) : List Event × Bool :=
  match m.run_id with
  | none => (t ++ [.dlq m message_id], false)
  | some _ =>
    let t1 := t ++ [.dlq m message_id, .statusWrite m.run_id "failed"]
    if webhookFieldTruthy m then
      dead_letter_webhook m message_id t1 env
    else
      (t1 ++ [.ack message_id], true)

/-- The `except` branch of `_process_message` (main.py:243-282), entered with
the events `t` already performed: read the raw retry count (default 0); under
`QUEUE_MAX_RETRIES` take the retry arm, at or over it the dead-letter arm.
The second component says whether the method returned normally. -/
def failure_branch (m : JobMessage) (message_id : String) (t : List Event)
    (env : WorkerEnv) (max_retries : Nat) : List Event × Bool :=
  let rc := m.retry_count.getD 0
  if rc < max_retries then
    retry_branch m message_id t rc
  else
    dead_letter_branch m message_id t env

/-- The try block of `QueueWorker._process_message` (main.py:211-241) for a
parsed job: set the Run `running` (inside `process_job`, main.py:322),
execute, set the Run `completed`, send the success webhook when the parsed
`webhook_url` is non-empty, and acknowledge; any raise diverts to
`failure_branch`. Together with `process_message` below this is the
sequence of externally visible actions of one delivery attempt; the boolean
is `true` when the method returned normally (in particular, when the
message was acknowledged). -/
def main_branch (job : Job) (m : JobMessage) (message_id : String)
    (env : WorkerEnv) (max_retries : Nat) : List Event × Bool :=
  if env.update_running_ok then
    let t1 := [Event.statusWrite (some job.run_id) "running"]
    if env.exec_ok then
      if env.update_completed_ok then
        let t2 := t1 ++ [Event.statusWrite (some job.run_id) "completed"]
        let t3 := t2 ++
          (if !(job.webhook_url == "") then
            [Event.webhook job.run_id true (WebhookNotifier.notify env.webhook_delivered)]
          else [])
        (t3 ++ [.ack message_id], true)
      else
        failure_branch m message_id t1 env max_retries
    else
      failure_branch m message_id t1 env max_retries
  else
    failure_branch m message_id [] env max_retries

/-- `QueueWorker._process_message` (main.py:192-282): `_parse_job` raising
(main.py:213) diverts straight to the `except` branch, a parsed job runs the
try block. -/
def process_message (m : JobMessage) (message_id : String) (env : WorkerEnv)
    (max_retries : Nat) : List Event × Bool :=
  match parse_job m with
  | none => failure_branch m message_id [] env max_retries
  | some job => main_branch job m message_id env max_retries

/-- Equation: an unparseable message goes straight to the `except` branch. -/
theorem process_message_eq_none (m : JobMessage) (message_id : String)
    (env : WorkerEnv) (max_retries : Nat) (hp : parse_job m = none) :
    process_message m message_id env max_retries
      = failure_branch m message_id [] env max_retries := by
  unfold process_message
  rw [hp]

/-- Equation: a parsed message runs the main try block. -/
theorem process_message_eq_some (m : JobMessage) (message_id : String)
    (env : WorkerEnv) (max_retries : Nat) (job : Job)
    (hp : parse_job m = some job) :
    process_message m message_id env max_retries
      = main_branch job m message_id env max_retries := by
  unfold process_message
  rw [hp]

/-- Equation: the retry arm on a message carrying a `run_id` key requeues
and acknowledges. -/
theorem retry_branch_eq_some (m : JobMessage) (rid : String)
    (hp : m.run_id = some rid) (message_id : String) (t : List Event)
    (rc : Nat) :
    retry_branch m message_id t rc
      = (t ++ [.requeue (retry_job m rc), .ack message_id], true) := by
  unfold retry_branch
  rw [hp]

/-- Equation: the retry arm on a message without a `run_id` key requeues and
then raises (main.py:436), never acknowledging. -/
theorem retry_branch_eq_none (m : JobMessage) (hp : m.run_id = none)
    (message_id : String) (t : List Event) (rc : Nat) :
    retry_branch m message_id t rc
      = (t ++ [.requeue (retry_job m rc)], false) := by
  unfold retry_branch
  rw [hp]

/-- Equation: the dead-letter arm on a message carrying a `run_id` key. -/
theorem dead_letter_branch_eq_some (m : JobMessage) (rid : String)
    (hp : m.run_id = some rid) (message_id : String) (t : List Event)
    (env : WorkerEnv) :
    dead_letter_branch m message_id t env
      = (if webhookFieldTruthy m then
          dead_letter_webhook m message_id
            (t ++ [.dlq m message_id, .statusWrite (some rid) "failed"]) env
        else
          (t ++ [.dlq m message_id, .statusWrite (some rid) "failed"]
            ++ [.ack message_id], true)) := by
  unfold dead_letter_branch
  rw [hp]

/-- Equation: the dead-letter arm on a message without a `run_id` key XADDs
to the dead-letter stream and then raises (main.py:469), with no `failed`
status write and no acknowledgment. -/
theorem dead_letter_branch_eq_none (m : JobMessage) (hp : m.run_id = none)
    (message_id : String) (t : List Event) (env : WorkerEnv) :
    dead_letter_branch m message_id t env = (t ++ [.dlq m message_id], false) := by
  unfold dead_letter_branch
  rw [hp]

/-- Equation: the dead-letter webhook step aborts on an unparseable message. -/
theorem dead_letter_webhook_eq_none (m : JobMessage) (hp : parse_job m = none)
    (message_id : String) (t1 : List Event) (env : WorkerEnv) :
    dead_letter_webhook m message_id t1 env = (t1, false) := by
  unfold dead_letter_webhook
  rw [hp]

/-- Equation: the dead-letter webhook step on a parseable message. -/
theorem dead_letter_webhook_eq_some (m : JobMessage) (job : Job)
    (hp : parse_job m = some job)
    (message_id : String) (t1 : List Event) (env : WorkerEnv) :
    dead_letter_webhook m message_id t1 env
      = (t1 ++ [.webhook job.run_id false (WebhookNotifier.notify env.webhook_delivered),
                .ack message_id], true) := by
  unfold dead_letter_webhook
  rw [hp]

/-! ## Rate limiter: src/apps/core_api/middleware.py -/

/-- Python `int()` on a real value truncates toward zero; request times are
modelled exactly by rationals. -/
def pyInt (q : ℚ) : ℤ := if 0 ≤ q then Int.floor q else Int.ceil q

/-- The decision of the sliding-window body of `RateLimitMiddleware.dispatch`. -/
inductive RLResult
  | allowed
  | denied (retry_after : ℤ)
  deriving DecidableEq, Repr

/-- `ZRANGE key 0 0 WITHSCORES`: the lowest score of the sorted set. -/
def oldestEntry : List ℚ → Option ℚ
  | [] => none
  | t :: ts => some (ts.foldl min t)

/-- The sliding-window body of `RateLimitMiddleware.dispatch`
(middleware.py:105-150) on one actor's sorted set of request timestamps:
`ZREMRANGEBYSCORE key 0 (now - window)` purges the scores lying in
[0, now - window]; `ZCARD` counts the survivors; at or over `limit` the
request is denied with `retry_after = int(window - (now - oldest)) + 1`
(middleware.py:122), or `window` itself when the purged set is empty;
otherwise `ZADD` records `now` under a fresh uuid member and the request is
allowed. The second component is the set the store is left with. -/
def sliding_window_check (entries : List ℚ) (now : ℚ) (window : ℤ) (limit : ℕ) :
    RLResult × List ℚ :=
  let purged := entries.filter (fun t => !(decide (0 ≤ t) && decide (t ≤ now - (window : ℚ))))
  if purged.length ≥ limit then
    let retry_after : ℤ :=
      match oldestEntry purged with
      | some t0 => pyInt ((window : ℚ) - (now - t0)) + 1
      | none => window
    (.denied retry_after, purged)
  else
    (.allowed, purged ++ [now])

/-- Successive admission decisions for a burst of requests from one actor,
threading the window state through `sliding_window_check`. -/
def run_burst (entries : List ℚ) (times : List ℚ) (window : ℤ) (limit : ℕ) :
    List RLResult × List ℚ :=
  match times with
  | [] => ([], entries)
  | t :: ts =>
    let step := sliding_window_check entries t window limit
    let rest := run_burst step.2 ts window limit
    (step.1 :: rest.1, rest.2)

/-- The backing store as `dispatch` sees it: `get_redis_client()` returned
`None`; the client is connected but its operations raise; or it is reachable
with the actor's current window. -/
inductive RLStore
  | unavailable
  | failing
  | reachable (entries : List ℚ)
  deriving DecidableEq, Repr

/-- The level of the diagnostic the middleware logs. -/
inductive LogLevel
  | warning
  | error
  deriving DecidableEq, Repr

/-- What `RateLimitMiddleware.dispatch` does with the request. -/
inductive DispatchOutcome
  | forwarded (log : Option LogLevel)
  | rejected (retry_after : ℤ)
  deriving DecidableEq, Repr

/-- `RateLimitMiddleware.dispatch` (middleware.py:68-155) for a non-exempt
path: `get_redis_client()` returning `None` short-circuits to `call_next`
after `logger.warning` (middleware.py:76-80); any raise out of the store
operations is caught by the `except` (middleware.py:152-155), which calls
`logger.error` and forwards the request; otherwise the sliding-window
decision applies. The second component is the window state left in the
store (`none` when it is unknown or unreachable). -/
def dispatch (store : RLStore) (now : ℚ) (window : ℤ) (limit : ℕ) :
    DispatchOutcome × Option (List ℚ) :=
  match store with
  | .unavailable => (.forwarded (some .warning), none)
  | .failing => (.forwarded (some .error), none)
  | .reachable entries =>
    match sliding_window_check entries now window limit with
    | (.denied ra, entries') => (.rejected ra, some entries')
    | (.allowed, entries') => (.forwarded none, some entries')

/-! ## Concrete inputs used by the evaluation theorems -/

/-- A well-formed admission request carrying an idempotency key. -/
def sampleRequest : ActRequest :=
  { actor := "n8n_workflow_abc123", goal := "summarize issues", context := "{}"
    max_steps := 10, timeout_seconds := 300, dry_run := false
    idempotency_key := some "n8n_exec_550e8400" }

/-- The row the gate persists for `sampleRequest` under run id "r1" and
trace id "t1". -/
def sampleRow : RunRow :=
  { id := "r1", actor := "n8n_workflow_abc123", request_payload := sampleRequest
    status := "queued", autonomy_level := some "L2_ExecuteNotify", trace_id := "t1"
    idempotency_key := some "n8n_exec_550e8400", completed_at := none
    error_message := none }

/-! ## C1 -/

/-- C1: claimed — a failure between persisting the `queued` Run and a
successful enqueue never leaves an orphaned `queued` Run: the gate retries
the enqueue or rolls the Run back to `failed`. The code has no handler
around either call (act.py:335-355), so evaluating the background branch at
an input whose enqueue raises shows the violation: the call errors out,
the ledger keeps the Run in `queued` status with no error message, and the
queue holds no message for it — no retry, no rollback. -/
theorem c1_enqueue_failure_leaves_orphaned_queued_run :
    (execute_action_background [] [] sampleRequest "r1" "t1" "L2_ExecuteNotify"
        none false).1 = .error .enqueueFailed ∧
    (execute_action_background [] [] sampleRequest "r1" "t1" "L2_ExecuteNotify"
        none false).2.1 = [sampleRow] ∧
    sampleRow.status = "queued" ∧ sampleRow.error_message = none ∧
    (execute_action_background [] [] sampleRequest "r1" "t1" "L2_ExecuteNotify"
        none false).2.2 = [] :=
  ⟨rfl, rfl, rfl, rfl, rfl⟩

/-! ## C2 -/

/-- C2: claimed — two admissions with the same non-null idempotency key
return the same `run_id`, create one Run in total, and the second is
side-effect-free. The idempotency check of act.py:195-210 is a commented-out
TODO (`idempotency_check` always yields `none`), so the second admission
proceeds with a fresh uuid and its Run insert hits the unique
`idempotency_key` column: evaluated on two identical requests with key
"n8n_exec_550e8400" (fresh run ids "r1", "r2", trace ids "t1", "t2"), the
first returns 202 `queued` with run id "r1" and the second raises an
integrity error instead of returning `Duplicate("r1")` — contradicting both
the claim and the endpoint's own docstring ("Duplicate `idempotency_key`
returns 409 Conflict with existing run_id"). -/
theorem c2_duplicate_key_second_admission_errors :
    idempotency_check (some "n8n_exec_550e8400") = none ∧
    (execute_action_background [] [] sampleRequest "r1" "t1" "L2_ExecuteNotify"
        none true).1 =
      .ok { run_id := "r1", trace_id := "t1", status := "queued"
            poll_url := "/runs/r1/status" } ∧
    (execute_action_background
        (execute_action_background [] [] sampleRequest "r1" "t1" "L2_ExecuteNotify"
          none true).2.1
        (execute_action_background [] [] sampleRequest "r1" "t1" "L2_ExecuteNotify"
          none true).2.2
        sampleRequest "r2" "t2" "L2_ExecuteNotify" none true).1 =
      .error .dbIntegrity :=
  ⟨rfl, rfl, rfl⟩

/-! ## C6 -/

/-- A run that already reached the terminal status `failed`. -/
def failedRow : RunRow :=
  { sampleRow with id := "r9", trace_id := "t9", idempotency_key := none
                   status := "failed" }

/-- C6: counterexample — the claim says a write setting the status to
`completed` succeeds only if the current status is `running`. `save_run`
(stores.py:516-519) assigns the new status with no condition on the current
one: on a ledger whose only run is already `failed`, the worker's
`update_job_status(..., "completed")` succeeds and overwrites the status. -/
theorem c6_counterexample_completed_overwrites_failed :
    failedRow.status = "failed" ∧
    update_job_status [failedRow] "r9" "completed" none 5 =
      .ok [{ failedRow with status := "completed", completed_at := some 5 }] :=
  ⟨rfl, rfl⟩

/-- C6 as amended: Run-status writes during job execution are unconditional
upserts. Whenever the Run exists (and the table satisfies its constraints),
`update_job_status` succeeds and overwrites that Run's status with the new
value whatever the current status is; rows with other ids are untouched. In
particular a write setting `completed` also succeeds when the current status
is `queued` or `failed`, so nothing in the store keys the write on the
current status and backward transitions are possible when two attempts
race. -/
theorem c6_status_writes_are_unconditional (runs : List RunRow)
    (run_id st : String) (err : Option String) (now : Nat) (r : RunRow)
    (hfind : runs.find? (fun x => x.id == run_id) = some r)
    (hok : rowsOk runs) :
    ∃ runs', update_job_status runs run_id st err now = .ok runs' ∧
      (∀ x ∈ runs', x.id = run_id → x.status = st) ∧
      (∀ x ∈ runs', x.id ≠ run_id → x ∈ runs) := by
  have hmaps : ∀ (d : RunData), d.id = run_id → d.trace_id = none →
      d.idempotency_key = none → ∀ x ∈ runs,
      (if x.id == run_id then applyUpdate x d else x).id = x.id ∧
      (if x.id == run_id then applyUpdate x d else x).trace_id = x.trace_id ∧
      (if x.id == run_id then applyUpdate x d else x).idempotency_key
        = x.idempotency_key := by
    intro d hid htr hik x _
    by_cases hx : x.id = run_id
    · simp [hx, applyUpdate, hid, htr, hik]
    · simp [hx]
  have hcongr : ∀ (d : RunData), d.id = run_id → d.trace_id = none →
      d.idempotency_key = none →
      rowsOk (runs.map (fun x => if x.id == run_id then applyUpdate x d else x)) := by
    intro d hid htr hik
    obtain ⟨h1, h2, h3⟩ := hok
    refine ⟨?_, ?_, ?_⟩
    · rw [List.map_map]
      simp only [Function.comp_def]
      rw [List.map_congr_left (g := RunRow.id)
        (fun x hx => (hmaps d hid htr hik x hx).1)]
      exact h1
    · rw [List.map_map]
      simp only [Function.comp_def]
      rw [List.map_congr_left (g := RunRow.trace_id)
        (fun x hx => (hmaps d hid htr hik x hx).2.1)]
      exact h2
    · rw [List.filterMap_map]
      simp only [Function.comp_def]
      rw [List.filterMap_congr (g := RunRow.idempotency_key)
        (fun x hx => (hmaps d hid htr hik x hx).2.2)]
      exact h3
  have hok' := hcongr
    { id := run_id, status := some st
      completed_at := if st == "completed" || st == "failed" then some now else none
      error_message := err } rfl rfl rfl
  refine ⟨runs.map (fun x => if x.id == run_id then applyUpdate x
      { id := run_id, status := some st
        completed_at := if st == "completed" || st == "failed" then some now else none
        error_message := err } else x), ?_, ?_, ?_⟩
  · unfold update_job_status save_run
    dsimp only
    rw [hfind]
    exact if_pos hok'
  · intro x hx hid
    obtain ⟨y, hy, hyx⟩ := List.mem_map.mp hx
    by_cases h : y.id = run_id
    · rw [if_pos (by simpa using h)] at hyx
      rw [← hyx]
      simp [applyUpdate]
    · rw [if_neg (by simpa using h)] at hyx
      exact absurd (hyx ▸ hid) h
  · intro x hx hid
    obtain ⟨y, hy, hyx⟩ := List.mem_map.mp hx
    by_cases h : y.id = run_id
    · exfalso
      apply hid
      rw [← hyx, if_pos (by simpa using h)]
      simp [applyUpdate]
    · rw [← hyx, if_neg (by simpa using h)]
      exact hy

/-- C6 witness: the amended statement at a concrete input — a single
`queued` run "r1" updated to `completed` at time 7. -/
theorem c6_status_writes_are_unconditional_witness :
    ∃ runs', update_job_status [sampleRow] "r1" "completed" none 7 = .ok runs' ∧
      (∀ x ∈ runs', x.id = "r1" → x.status = "completed") ∧
      (∀ x ∈ runs', x.id ≠ "r1" → x ∈ [sampleRow]) :=
  c6_status_writes_are_unconditional [sampleRow] "r1" "completed" none 7
    sampleRow (by rfl) (by decide)

/-! ## C10 -/

/-- C10: the `runs.trace_id` column is unique and non-null (models.py:27)
while `get_trace_id` returns the constant `"no_trace"` whenever no valid
span is active (deps.py:326-328), and the background branch stores that
value as the new Run's trace id (act.py:341). Hence once any persisted Run
carries trace id `"no_trace"`, every further background admission performed
with tracing inactive — whatever the request, the fresh run id, the autonomy
level or the webhook — fails its run-creation write with an integrity error
and leaves ledger and queue unchanged: with tracing inactive at most one Run
can ever be persisted. -/
theorem c10_no_trace_uniqueness_blocks_later_admissions
    (sc : Option SpanContext) (hsc : ∀ s, sc = some s → s.valid = false)
    (runs : List RunRow) (queue : List JobMessage) (req : ActRequest)
    (run_id lvl : String) (wh : Option String) (enq : Bool)
    (hdup : ∃ r ∈ runs, r.trace_id = "no_trace")
    (hfresh : ∀ r ∈ runs, r.id ≠ run_id) :
    get_trace_id sc = "no_trace" ∧
    execute_action_background runs queue req run_id (get_trace_id sc) lvl wh enq
      = (.error .dbIntegrity, runs, queue) := by
  have htr : get_trace_id sc = "no_trace" := by
    cases sc with
    | none => rfl
    | some s => simp [get_trace_id, hsc s rfl]
  refine ⟨htr, ?_⟩
  rw [htr]
  have hfind : runs.find? (fun r => r.id == run_id) = none := by
    rw [List.find?_eq_none]
    intro x hx
    simpa using hfresh x hx
  have hbad : ¬ rowsOk (runs ++
      [{ id := run_id, actor := req.actor, request_payload := req
         status := "queued", autonomy_level := some lvl, trace_id := "no_trace"
         idempotency_key := req.idempotency_key, completed_at := none
         error_message := none }]) := by
    rintro ⟨-, h2, -⟩
    rw [List.map_append, List.nodup_append] at h2
    obtain ⟨r, hr, hrtr⟩ := hdup
    exact h2.2.2 (List.mem_map_of_mem RunRow.trace_id hr) (by simp [hrtr])
  have hsave : save_run runs
      { id := run_id, actor := some req.actor, request_payload := some req
        status := some "queued", autonomy_level := some lvl
        trace_id := some "no_trace"
        idempotency_key := some req.idempotency_key }
      = .error .integrityError := by
    unfold save_run
    rw [hfind]
    dsimp only [mkRow]
    simp only [Option.getD_some]
    rw [if_neg hbad]
  unfold execute_action_background
  rw [hsave]

/-- A run persisted while tracing was inactive. -/
def noTraceRow : RunRow := { sampleRow with trace_id := "no_trace" }

/-- C10 witness: the theorem at a concrete input — a ledger holding one
run with trace id "no_trace", a second admission with fresh run id "r2"
and no active span. -/
theorem c10_no_trace_uniqueness_blocks_later_admissions_witness :
    get_trace_id none = "no_trace" ∧
    execute_action_background [noTraceRow] [] sampleRequest "r2" (get_trace_id none)
      "L2_ExecuteNotify" none true = (.error .dbIntegrity, [noTraceRow], []) :=
  c10_no_trace_uniqueness_blocks_later_admissions none (fun _ h => nomatch h)
    [noTraceRow] [] sampleRequest "r2" "L2_ExecuteNotify" none true
    ⟨noTraceRow, by simp, rfl⟩ (by decide)

/-! ## Worker trace predicates -/

/-- Is the event an XACK? -/
def isAck : Event → Bool
  | .ack _ => true
  | _ => false

/-- Is the event a terminal action (a persisted terminal status) or a retry
action (a requeue)? -/
def isSettled : Event → Bool
  | .statusWrite _ s => s == "completed" || s == "failed"
  | .requeue _ => true
  | _ => false

/-- `acksAfterSettle t seen`: scanning `t`, every XACK is preceded by a
terminal or retry action (`seen` says one already happened). -/
def acksAfterSettle : List Event → Bool → Bool
  | [], _ => true
  | e :: rest, seen =>
    if isAck e then seen && acksAfterSettle rest seen
    else acksAfterSettle rest (seen || isSettled e)

/-- Is the event a requeue? -/
def isRequeue : Event → Bool
  | .requeue _ => true
  | _ => false

/-- Is the event an XADD to the dead-letter stream? -/
def isDlq : Event → Bool
  | .dlq _ _ => true
  | _ => false

/-! ## C3 -/

/-- The `except` handler acknowledges exactly once and only after a settle
action, given that the events `t` already performed contain no XACK and do
not affect the `acksAfterSettle` scan. -/
theorem failure_branch_ack (m : JobMessage) (mid : String) (t : List Event)
    (env : WorkerEnv) (maxR : Nat)
    (hc : t.countP isAck = 0)
    (ha : ∀ l b, acksAfterSettle (t ++ l) b = acksAfterSettle l b)
    (h2 : (failure_branch m mid t env maxR).2 = true) :
    (failure_branch m mid t env maxR).1.countP isAck = 1 ∧
    acksAfterSettle (failure_branch m mid t env maxR).1 false = true := by
  unfold failure_branch at h2 ⊢
  by_cases hrc : m.retry_count.getD 0 < maxR
  · rw [if_pos hrc] at h2 ⊢
    rcases hrid : m.run_id with - | rid
    · rw [retry_branch_eq_none m hrid] at h2
      exact absurd h2 (by simp)
    · rw [retry_branch_eq_some m rid hrid]
      constructor
      · simp [List.countP_append, List.countP_cons, hc, isAck]
      · rw [ha]
        simp [acksAfterSettle, isAck, isSettled]
  · rw [if_neg hrc] at h2 ⊢
    rcases hrid : m.run_id with - | rid
    · rw [dead_letter_branch_eq_none m hrid] at h2
      exact absurd h2 (by simp)
    · rw [dead_letter_branch_eq_some m rid hrid] at h2 ⊢
      by_cases hw : webhookFieldTruthy m
      · rw [if_pos hw] at h2 ⊢
        rcases hj : parse_job m with - | job
        · rw [dead_letter_webhook_eq_none m hj] at h2
          exact absurd h2 (by simp)
        · rw [dead_letter_webhook_eq_some m job hj]
          constructor
          · simp [List.countP_append, List.countP_cons, hc, isAck]
          · rw [List.append_assoc, ha]
            simp [acksAfterSettle, isAck, isSettled]
      · rw [if_neg hw] at h2 ⊢
        constructor
        · simp [List.countP_append, List.countP_cons, hc, isAck]
        · rw [List.append_assoc, ha]
          simp [acksAfterSettle, isAck, isSettled]

/-- C3: confirmed — whenever `_process_message` finishes a claimed message
(success branch, retry branch or dead-letter branch, main.py:192-282), its
action trace contains exactly one XACK, and no XACK happens before a
terminal action (a persisted `completed` or `failed` status) or a retry
action (a requeue) has been taken for the message. (When the handler itself
raises — the dead-letter re-parse of main.py:270 on an unparseable message —
the method does not finish and no XACK happens at all.) -/
theorem c3_ack_exactly_once_after_settle (m : JobMessage) (mid : String)
    (env : WorkerEnv) (maxR : Nat)
    (h : (process_message m mid env maxR).2 = true) :
    (process_message m mid env maxR).1.countP isAck = 1 ∧
    acksAfterSettle (process_message m mid env maxR).1 false = true := by
  rcases hp : parse_job m with - | job
  · rw [process_message_eq_none m mid env maxR hp] at h ⊢
    exact failure_branch_ack m mid [] env maxR rfl (fun l b => rfl) h
  · rw [process_message_eq_some m mid env maxR job hp] at h ⊢
    unfold main_branch at h ⊢
    by_cases hu : env.update_running_ok
    · rw [if_pos hu] at h ⊢
      by_cases he : env.exec_ok
      · rw [if_pos he] at h ⊢
        by_cases hcp : env.update_completed_ok
        · rw [if_pos hcp]
          by_cases hw : !(job.webhook_url == "")
          · rw [if_pos hw]
            simp [List.countP_append, List.countP_cons, isAck,
              acksAfterSettle, isSettled]
          · rw [if_neg hw]
            simp [List.countP_append, List.countP_cons, isAck,
              acksAfterSettle, isSettled]
        · rw [if_neg hcp] at h ⊢
          refine failure_branch_ack m mid _ env maxR rfl ?_ h
          intro l b
          simp [acksAfterSettle, isAck, isSettled]
      · rw [if_neg he] at h ⊢
        refine failure_branch_ack m mid _ env maxR rfl ?_ h
        intro l b
        simp [acksAfterSettle, isAck, isSettled]
    · rw [if_neg hu] at h ⊢
      exact failure_branch_ack m mid [] env maxR rfl (fun l b => rfl) h

/-- A fully well-formed job message as the gate publishes it. -/
def goodMsg : JobMessage :=
  { run_id := some "r1", goal := some "summarize issues", actor := some "a"
    autonomy_level := some "L2_ExecuteNotify", context := .parseable "{}"
    max_steps := some 10, dry_run := some false
    webhook_url := some "https://hooks.example/x"
    created_at := some "2025-01-01T00:00:00", retry_count := some 0 }

/-- C3 witness: the theorem at a concrete finished delivery. -/
theorem c3_ack_exactly_once_after_settle_witness :
    (process_message goodMsg "1-0" {} 3).2 = true ∧
    ((process_message goodMsg "1-0" {} 3).1.countP isAck = 1 ∧
      acksAfterSettle (process_message goodMsg "1-0" {} 3).1 false = true) :=
  ⟨by decide, c3_ack_exactly_once_after_settle goodMsg "1-0" {} 3 (by decide)⟩

/-! ## C4 -/

/-- Requeues put out by the `except` branch: beyond what was already in `t`,
only the copy of `m` with its retry count incremented, and only below the
retry maximum. -/
theorem failure_branch_requeue_mem (m : JobMessage) (mid : String)
    (t : List Event) (env : WorkerEnv) (maxR : Nat) (m' : JobMessage)
    (hmem : Event.requeue m' ∈ (failure_branch m mid t env maxR).1) :
    Event.requeue m' ∈ t ∨
      (m' = retry_job m (m.retry_count.getD 0) ∧ m.retry_count.getD 0 < maxR) := by
  unfold failure_branch at hmem
  by_cases hrc : m.retry_count.getD 0 < maxR
  · rw [if_pos hrc] at hmem
    rcases hrid : m.run_id with - | rid
    · rw [retry_branch_eq_none m hrid] at hmem
      simp only [List.mem_append, List.mem_cons, List.not_mem_nil, or_false] at hmem
      rcases hmem with h | h
      · exact .inl h
      · cases h
        exact .inr ⟨rfl, hrc⟩
    · rw [retry_branch_eq_some m rid hrid] at hmem
      simp only [List.mem_append, List.mem_cons, List.not_mem_nil, or_false] at hmem
      rcases hmem with h | h | h
      · exact .inl h
      · cases h
        exact .inr ⟨rfl, hrc⟩
      · cases h
  · rw [if_neg hrc] at hmem
    rcases hrid : m.run_id with - | rid
    · rw [dead_letter_branch_eq_none m hrid] at hmem
      simp only [List.mem_append, List.mem_cons, List.not_mem_nil, or_false] at hmem
      rcases hmem with h | h
      · exact .inl h
      · cases h
    · rw [dead_letter_branch_eq_some m rid hrid] at hmem
      by_cases hw : webhookFieldTruthy m
      · rw [if_pos hw] at hmem
        rcases hj : parse_job m with - | job
        · rw [dead_letter_webhook_eq_none m hj] at hmem
          simp only [List.mem_append, List.mem_cons, List.not_mem_nil, or_false] at hmem
          rcases hmem with h | h | h
          · exact .inl h
          · cases h
          · cases h
        · rw [dead_letter_webhook_eq_some m job hj] at hmem
          simp only [List.mem_append, List.mem_cons, List.not_mem_nil, or_false] at hmem
          rcases hmem with (h | h | h) | h | h
          · exact .inl h
          · cases h
          · cases h
          · cases h
          · cases h
      · rw [if_neg hw] at hmem
        simp only [List.mem_append, List.mem_cons, List.not_mem_nil, or_false] at hmem
        rcases hmem with (h | h | h) | h
        · exact .inl h
        · cases h
        · cases h
        · cases h

/-- Dead-letter XADDs put out by the `except` branch: beyond `t`, only the
raw message itself, and only at or over the retry maximum. -/
theorem failure_branch_dlq_mem (m : JobMessage) (mid : String)
    (t : List Event) (env : WorkerEnv) (maxR : Nat) (m₂ : JobMessage)
    (omid : String)
    (hmem : Event.dlq m₂ omid ∈ (failure_branch m mid t env maxR).1) :
    Event.dlq m₂ omid ∈ t ∨
      (m₂ = m ∧ omid = mid ∧ maxR ≤ m.retry_count.getD 0) := by
  unfold failure_branch at hmem
  by_cases hrc : m.retry_count.getD 0 < maxR
  · rw [if_pos hrc] at hmem
    rcases hrid : m.run_id with - | rid
    · rw [retry_branch_eq_none m hrid] at hmem
      simp only [List.mem_append, List.mem_cons, List.not_mem_nil, or_false] at hmem
      rcases hmem with h | h
      · exact .inl h
      · cases h
    · rw [retry_branch_eq_some m rid hrid] at hmem
      simp only [List.mem_append, List.mem_cons, List.not_mem_nil, or_false] at hmem
      rcases hmem with h | h | h
      · exact .inl h
      · cases h
      · cases h
  · rw [if_neg hrc] at hmem
    have hle : maxR ≤ m.retry_count.getD 0 := Nat.le_of_not_lt hrc
    rcases hrid : m.run_id with - | rid
    · rw [dead_letter_branch_eq_none m hrid] at hmem
      simp only [List.mem_append, List.mem_cons, List.not_mem_nil, or_false] at hmem
      rcases hmem with h | h
      · exact .inl h
      · cases h
        exact .inr ⟨rfl, rfl, hle⟩
    · rw [dead_letter_branch_eq_some m rid hrid] at hmem
      by_cases hw : webhookFieldTruthy m
      · rw [if_pos hw] at hmem
        rcases hj : parse_job m with - | job
        · rw [dead_letter_webhook_eq_none m hj] at hmem
          simp only [List.mem_append, List.mem_cons, List.not_mem_nil, or_false] at hmem
          rcases hmem with h | h | h
          · exact .inl h
          · cases h
            exact .inr ⟨rfl, rfl, hle⟩
          · cases h
        · rw [dead_letter_webhook_eq_some m job hj] at hmem
          simp only [List.mem_append, List.mem_cons, List.not_mem_nil, or_false] at hmem
          rcases hmem with (h | h | h) | h | h
          · exact .inl h
          · cases h
            exact .inr ⟨rfl, rfl, hle⟩
          · cases h
          · cases h
          · cases h
      · rw [if_neg hw] at hmem
        simp only [List.mem_append, List.mem_cons, List.not_mem_nil, or_false] at hmem
        rcases hmem with (h | h | h) | h
        · exact .inl h
        · cases h
          exact .inr ⟨rfl, rfl, hle⟩
        · cases h
        · cases h

/-- Every delivery attempt either runs the success path to the end or lands
in the `except` branch having performed at most the `running` status
write. -/
theorem process_message_cases (m : JobMessage) (mid : String) (env : WorkerEnv)
    (maxR : Nat) :
    (∃ job, parse_job m = some job ∧ process_message m mid env maxR =
      (([Event.statusWrite (some job.run_id) "running"] ++
          [Event.statusWrite (some job.run_id) "completed"] ++
          (if !(job.webhook_url == "") then
            [Event.webhook job.run_id true (WebhookNotifier.notify env.webhook_delivered)]
          else [])) ++ [Event.ack mid], true)) ∨
    (∃ t, (t = ([] : List Event) ∨
        ∃ rid, t = [Event.statusWrite rid "running"]) ∧
      process_message m mid env maxR = failure_branch m mid t env maxR) := by
  rcases hp : parse_job m with - | job
  · exact .inr ⟨[], .inl rfl, process_message_eq_none m mid env maxR hp⟩
  · rw [process_message_eq_some m mid env maxR job hp]
    unfold main_branch
    by_cases hu : env.update_running_ok
    · rw [if_pos hu]
      by_cases he : env.exec_ok
      · rw [if_pos he]
        by_cases hcp : env.update_completed_ok
        · rw [if_pos hcp]
          exact .inl ⟨job, rfl, rfl⟩
        · rw [if_neg hcp]
          exact .inr ⟨_, .inr ⟨some job.run_id, rfl⟩, rfl⟩
      · rw [if_neg he]
        exact .inr ⟨_, .inr ⟨some job.run_id, rfl⟩, rfl⟩
    · rw [if_neg hu]
      exact .inr ⟨[], .inl rfl, rfl⟩

/-- C4: confirmed — every requeue the worker ever publishes while processing
message `m` is a copy of `m` carrying the same raw fields (so the same
`run_id`) with `retry_count` exactly the incoming retry count plus one
(`_retry_job`, main.py:424-432); a requeue happens only when the incoming
count is strictly under `QUEUE_MAX_RETRIES`, so the published count never
exceeds the maximum; and the message reaches the dead-letter stream only
once its retry count is at or over the maximum. -/
theorem c4_requeue_increment_same_run_bounded (m : JobMessage) (mid : String)
    (env : WorkerEnv) (maxR : Nat) :
    (∀ m', Event.requeue m' ∈ (process_message m mid env maxR).1 →
      m'.run_id = m.run_id ∧
      m'.retry_count = some (m.retry_count.getD 0 + 1) ∧
      m.retry_count.getD 0 < maxR ∧
      m'.retry_count.getD 0 ≤ maxR) ∧
    (∀ m₂ omid, Event.dlq m₂ omid ∈ (process_message m mid env maxR).1 →
      m₂ = m ∧ maxR ≤ m.retry_count.getD 0) := by
  have key := process_message_cases m mid env maxR
  constructor
  · intro m' hmem
    have hm' : m' = retry_job m (m.retry_count.getD 0) ∧
        m.retry_count.getD 0 < maxR := by
      rcases key with ⟨job, -, heq⟩ | ⟨t, ht, heq⟩
      · rw [heq] at hmem
        by_cases hw : !(job.webhook_url == "")
        · rw [if_pos hw] at hmem
          simp at hmem
        · rw [if_neg hw] at hmem
          simp at hmem
      · rw [heq] at hmem
        rcases failure_branch_requeue_mem m mid t env maxR m' hmem with h | h
        · exfalso
          rcases ht with rfl | ⟨rid, rfl⟩
          · simp at h
          · simp at h
        · exact h
    obtain ⟨rfl, hrc⟩ := hm'
    refine ⟨rfl, rfl, hrc, ?_⟩
    simpa [retry_job] using hrc
  · intro m₂ omid hmem
    rcases key with ⟨job, -, heq⟩ | ⟨t, ht, heq⟩
    · rw [heq] at hmem
      by_cases hw : !(job.webhook_url == "")
      · rw [if_pos hw] at hmem
        simp at hmem
      · rw [if_neg hw] at hmem
        simp at hmem
    · rw [heq] at hmem
      rcases failure_branch_dlq_mem m mid t env maxR m₂ omid hmem with h | h
      · exfalso
        rcases ht with rfl | ⟨rid, rfl⟩
        · simp at h
        · simp at h
      · exact ⟨h.1, h.2.2⟩

/-- C4 witness: a delivery of `goodMsg` whose execution raises requeues the
copy with retry count 1 (same `run_id`), within the maximum 3. -/
theorem c4_requeue_increment_same_run_bounded_witness :
    (retry_job goodMsg (goodMsg.retry_count.getD 0)).run_id = goodMsg.run_id ∧
    (retry_job goodMsg (goodMsg.retry_count.getD 0)).retry_count
      = some (goodMsg.retry_count.getD 0 + 1) ∧
    goodMsg.retry_count.getD 0 < 3 ∧
    (retry_job goodMsg (goodMsg.retry_count.getD 0)).retry_count.getD 0 ≤ 3 :=
  (c4_requeue_increment_same_run_bounded goodMsg "1-0"
      { exec_ok := false } 3).1
    (retry_job goodMsg (goodMsg.retry_count.getD 0)) (by decide)

/-! ## C5 -/

/-- A poison message: the `goal` key is missing, so `_parse_job` raises a
KeyError. Its retry count is absent, read as 0. -/
def poisonMsg : JobMessage :=
  { run_id := some "r1", actor := some "a", retry_count := none }

/-- C5: counterexample — the claim says an unparseable message is routed
directly to the dead-letter stream without consuming a retry. On the poison
message (no `goal` key, retry count 0) with `QUEUE_MAX_RETRIES = 3`, the
worker instead lands in the generic `except` branch (main.py:243), sees
`0 < 3` and requeues the message with retry count 1: the trace holds one
requeue and no dead-letter XADD. -/
theorem c5_counterexample_poison_is_requeued :
    parse_job poisonMsg = none ∧
    (process_message poisonMsg "1-0" {} 3).1.countP isDlq = 0 ∧
    (process_message poisonMsg "1-0" {} 3).1.countP isRequeue = 1 := by
  decide

/-- C5 as amended: an unparseable message (missing
`run_id`/`goal`/`actor`/`autonomy_level` or unparseable context JSON) is not
routed directly to the dead-letter stream: while its retry count is under
`QUEUE_MAX_RETRIES` the worker requeues it with the count incremented
(consuming a retry) and no dead-letter XADD happens; only once the count is
at or over the maximum does it go to the dead-letter stream, with no
requeue. What happens after the XADD depends on the raw `run_id` field: with
it present the retry branch acknowledges, and the dead-letter branch
acknowledges after the `failed` status write exactly when the webhook
re-parse does not abort it (main.py:270); without it, the logging subscript
`message_data["run_id"]` raises right after the XADD (main.py:436, 469), so
the message is left unacknowledged and, at the maximum, no `failed` status
is ever written. -/
theorem c5_poison_messages_follow_retry_path (m : JobMessage) (mid : String)
    (env : WorkerEnv) (maxR : Nat) (hpoison : parse_job m = none) :
    (m.retry_count.getD 0 < maxR →
      (process_message m mid env maxR).1.countP isDlq = 0 ∧
      (process_message m mid env maxR).1
        = Event.requeue (retry_job m (m.retry_count.getD 0))
            :: (if m.run_id.isSome then [Event.ack mid] else []) ∧
      (process_message m mid env maxR).2 = m.run_id.isSome) ∧
    (maxR ≤ m.retry_count.getD 0 →
      (process_message m mid env maxR).1.countP isRequeue = 0 ∧
      (process_message m mid env maxR).1.take 2
        = Event.dlq m mid
            :: (if m.run_id.isSome then [Event.statusWrite m.run_id "failed"]
                else []) ∧
      (process_message m mid env maxR).2
        = (m.run_id.isSome && !(webhookFieldTruthy m))) := by
  rw [process_message_eq_none m mid env maxR hpoison]
  unfold failure_branch
  constructor
  · intro hrc
    rw [if_pos hrc]
    rcases hrid : m.run_id with - | rid
    · rw [retry_branch_eq_none m hrid]
      simp [isDlq]
    · rw [retry_branch_eq_some m rid hrid]
      simp [isDlq]
  · intro hle
    rw [if_neg (Nat.not_lt.mpr hle)]
    rcases hrid : m.run_id with - | rid
    · rw [dead_letter_branch_eq_none m hrid]
      simp [isRequeue, List.take]
    · rw [dead_letter_branch_eq_some m rid hrid]
      by_cases hw : webhookFieldTruthy m
      · rw [if_pos hw, dead_letter_webhook_eq_none m hpoison]
        simp [isRequeue, List.take, hw]
      · rw [if_neg hw]
        simp [isRequeue, List.take, hw]

/-- C5 witness: the amended statement's under-maximum case at the concrete
poison message (which does carry a `run_id` key): no dead-letter XADD, one
requeue with retry count 1, then the acknowledgment. -/
theorem c5_poison_messages_follow_retry_path_witness :
    (process_message poisonMsg "1-0" {} 3).1.countP isDlq = 0 ∧
    (process_message poisonMsg "1-0" {} 3).1
      = Event.requeue (retry_job poisonMsg (poisonMsg.retry_count.getD 0))
          :: (if poisonMsg.run_id.isSome then [Event.ack "1-0"] else []) ∧
    (process_message poisonMsg "1-0" {} 3).2 = poisonMsg.run_id.isSome :=
  (c5_poison_messages_follow_retry_path poisonMsg "1-0" {} 3 rfl).1 (by decide)

/-! ## C8 -/

/-- Forget the delivery outcome carried by webhook events, keeping
everything else of the trace. -/
def eraseDelivery : Event → Event
  | .webhook r s _ => .webhook r s .delivered
  | e => e

/-- The `except` branch's visible actions do not depend on webhook delivery
outcomes (for any two environments), once those outcomes are erased. -/
theorem failure_branch_erase (m : JobMessage) (mid : String) (t : List Event)
    (maxR : Nat) (e₁ e₂ : WorkerEnv) :
    (failure_branch m mid t e₁ maxR).1.map eraseDelivery
      = (failure_branch m mid t e₂ maxR).1.map eraseDelivery ∧
    (failure_branch m mid t e₁ maxR).2 = (failure_branch m mid t e₂ maxR).2 := by
  unfold failure_branch
  dsimp only
  by_cases hrc : m.retry_count.getD 0 < maxR
  · simp only [if_pos hrc]
    exact ⟨trivial, trivial⟩
  · simp only [if_neg hrc]
    rcases hrid : m.run_id with - | rid
    · simp only [dead_letter_branch_eq_none m hrid]
      exact ⟨trivial, trivial⟩
    · simp only [dead_letter_branch_eq_some m rid hrid]
      by_cases hw : webhookFieldTruthy m
      · simp only [if_pos hw]
        rcases hj : parse_job m with - | job
        · simp only [dead_letter_webhook_eq_none m hj]
          exact ⟨trivial, trivial⟩
        · simp only [dead_letter_webhook_eq_some m job hj]
          refine ⟨?_, trivial⟩
          simp [eraseDelivery]
      · simp only [if_neg hw]
        exact ⟨trivial, trivial⟩

/-- C8: confirmed — webhook notification is a side channel. The notifier
(spec section 4.5; `chad_notifications` is not among the sources) logs
delivery failure instead of raising, so for any message and any outcome of
the worker's own fallible operations, the delivery attempt that fails
produces exactly the same Run-status writes, requeues, dead-letter XADDs and
acknowledgment as the one that succeeds: erasing the delivery outcome from
webhook events makes the two traces identical, and the method finishes in
the same way. -/
theorem c8_webhook_failure_never_affects_run (m : JobMessage) (mid : String)
    (maxR : Nat) (uR uE uC : Bool) :
    (process_message m mid ⟨uR, uE, uC, false⟩ maxR).1.map eraseDelivery
      = (process_message m mid ⟨uR, uE, uC, true⟩ maxR).1.map eraseDelivery ∧
    (process_message m mid ⟨uR, uE, uC, false⟩ maxR).2
      = (process_message m mid ⟨uR, uE, uC, true⟩ maxR).2 := by
  rcases hp : parse_job m with - | job
  · rw [process_message_eq_none m mid _ maxR hp,
      process_message_eq_none m mid _ maxR hp]
    exact failure_branch_erase m mid [] maxR _ _
  · rw [process_message_eq_some m mid _ maxR job hp,
      process_message_eq_some m mid _ maxR job hp]
    unfold main_branch
    by_cases hu : (⟨uR, uE, uC, false⟩ : WorkerEnv).update_running_ok
    · rw [if_pos hu, if_pos hu]
      by_cases he : (⟨uR, uE, uC, false⟩ : WorkerEnv).exec_ok
      · rw [if_pos he, if_pos he]
        by_cases hcp : (⟨uR, uE, uC, false⟩ : WorkerEnv).update_completed_ok
        · rw [if_pos hcp, if_pos hcp]
          by_cases hw : !(job.webhook_url == "")
          · rw [if_pos hw, if_pos hw]
            refine ⟨?_, rfl⟩
            simp [eraseDelivery]
          · rw [if_neg hw, if_neg hw]
            exact ⟨rfl, rfl⟩
        · rw [if_neg hcp, if_neg hcp]
          exact failure_branch_erase m mid _ maxR _ _
      · rw [if_neg he, if_neg he]
        exact failure_branch_erase m mid _ maxR _ _
    · rw [if_neg hu, if_neg hu]
      exact failure_branch_erase m mid [] maxR _ _

/-! ## C9 -/

/-- C9: counterexample — the claim says that also when a rate-limiting
operation raises, "a warning is logged". That path (middleware.py:152-155)
logs at error level (`logger.error`), not warning level; the request is
still admitted. -/
theorem c9_counterexample_error_level_log :
    dispatch .failing 0 60 5 = (.forwarded (some .error), none) ∧
    LogLevel.error ≠ LogLevel.warning :=
  ⟨rfl, by decide⟩

/-- C9 as amended: rate limiting fails open. When the backing store is
unreachable or any rate-limiting operation raises, the request is admitted
(forwarded to the handler) rather than rejected, and a diagnostic is logged:
a warning when `get_redis_client()` returned `None` (middleware.py:76-80), an
error-level message when an operation raised (middleware.py:152-155). -/
theorem c9_rate_limiting_fails_open (st : RLStore) (now : ℚ) (window : ℤ)
    (limit : ℕ) (h : st = .unavailable ∨ st = .failing) :
    ∃ lvl, dispatch st now window limit = (.forwarded (some lvl), none) ∧
      (st = .unavailable → lvl = .warning) ∧
      (st = .failing → lvl = .error) := by
  rcases h with rfl | rfl
  · refine ⟨.warning, rfl, fun _ => rfl, fun hcon => ?_⟩
    exact absurd hcon (by decide)
  · refine ⟨.error, rfl, fun hcon => ?_, fun _ => rfl⟩
    exact absurd hcon (by decide)

/-- C9 witness: the amended statement at the unreachable store. -/
theorem c9_rate_limiting_fails_open_witness :
    ∃ lvl, dispatch .unavailable 0 60 5 = (.forwarded (some lvl), none) ∧
      (RLStore.unavailable = .unavailable → lvl = .warning) ∧
      (RLStore.unavailable = .failing → lvl = .error) :=
  c9_rate_limiting_fails_open .unavailable 0 60 5 (.inl rfl)

/-! ## C7 -/

/-- C7: counterexample — the claim says the denial's
`retry_after = W - (now - oldest)` is always at most `W`. The code computes
`int(window - (now - oldest)) + 1` (middleware.py:122): with window 60,
limit 2 and both recorded entries at the current instant (`now - oldest`
is 0), the denial carries `retry_after = 61 > 60`. -/
theorem c7_counterexample_retry_after_exceeds_window :
    sliding_window_check [100, 100] 100 60 2 = (.denied 61, [100, 100]) ∧
    ¬((61 : ℤ) ≤ 60) := by
  constructor
  · norm_num [sliding_window_check, oldestEntry, pyInt, List.filter]
  · decide

/-- Did the sliding-window decision admit the request? -/
def isAllowed : RLResult → Bool
  | .allowed => true
  | .denied _ => false

/-- The left fold of `min` stays in the list it starts from. -/
theorem foldl_min_mem : ∀ (xs : List ℚ) (x : ℚ), xs.foldl min x ∈ x :: xs := by
  intro xs
  induction xs with
  | nil => intro x; simp
  | cons y ys ih =>
    intro x
    rcases List.mem_cons.mp (ih (min x y)) with h | h
    · rcases min_choice x y with hm | hm
      · rw [List.foldl_cons, h, hm]
        exact List.mem_cons_self x (y :: ys)
      · rw [List.foldl_cons, h, hm]
        exact List.mem_cons_of_mem x (List.mem_cons_self y ys)
    · exact List.mem_cons_of_mem x (List.mem_cons_of_mem y h)

/-- `ZRANGE key 0 0` yields an element of the set. -/
theorem oldestEntry_mem (l : List ℚ) (t0 : ℚ) (h : oldestEntry l = some t0) :
    t0 ∈ l := by
  cases l with
  | nil => cases h
  | cons x xs =>
    unfold oldestEntry at h
    cases h
    exact foldl_min_mem xs x

/-- When every entry survives the purge and the window is at capacity, the
check denies, leaves the set unchanged, and — the entries all lying within
the trailing window of `now` — the computed `retry_after` is at most
`window + 1`. -/
theorem sliding_window_check_denied (entries : List ℚ) (now : ℚ)
    (window : ℤ) (limit : ℕ)
    (hkeep : entries.filter
      (fun x => !(decide (0 ≤ x) && decide (x ≤ now - (window : ℚ)))) = entries)
    (hlen : limit ≤ entries.length)
    (hbound : ∀ x ∈ entries, x ≤ now ∧ now - x < (window : ℚ)) :
    ∃ ra : ℤ, sliding_window_check entries now window limit
        = (.denied ra, entries) ∧ ra ≤ window + 1 := by
  unfold sliding_window_check
  dsimp only
  rw [hkeep, if_pos (by omega : entries.length ≥ limit)]
  rcases hoe : oldestEntry entries with - | t0
  · exact ⟨window, rfl, by omega⟩
  · refine ⟨_, rfl, ?_⟩
    obtain ⟨hle, hlt⟩ := hbound t0 (oldestEntry_mem entries t0 hoe)
    have hq0 : (0 : ℚ) ≤ (window : ℚ) - (now - t0) := by linarith
    have hqW : (window : ℚ) - (now - t0) ≤ (window : ℚ) := by linarith
    show pyInt ((window : ℚ) - (now - t0)) + 1 ≤ window + 1
    unfold pyInt
    rw [if_pos hq0]
    have hfl : Int.floor ((window : ℚ) - (now - t0)) ≤ window := by
      calc Int.floor ((window : ℚ) - (now - t0)) ≤ Int.floor ((window : ℚ)) :=
            Int.floor_le_floor hqW
        _ = window := Int.floor_intCast window
    omega

/-- When every entry survives the purge and the window is under capacity,
the check records `now` and allows. -/
theorem sliding_window_check_allowed (entries : List ℚ) (now : ℚ)
    (window : ℤ) (limit : ℕ)
    (hkeep : entries.filter
      (fun x => !(decide (0 ≤ x) && decide (x ≤ now - (window : ℚ)))) = entries)
    (hlen : entries.length < limit) :
    sliding_window_check entries now window limit
      = (.allowed, entries ++ [now]) := by
  unfold sliding_window_check
  dsimp only
  rw [hkeep, if_neg (by omega : ¬ entries.length ≥ limit)]

/-- The burst induction: starting from recorded entries `s` that are
nonnegative, no later than every remaining request time and strictly inside
its trailing window, a sorted in-window burst admits exactly the remaining
capacity, every denial's `retry_after` is at most `window + 1`, and the
final window holds `s` plus the admitted times. -/
theorem run_burst_go (window : ℤ) (limit : ℕ) :
    ∀ (times s : List ℚ),
      (∀ x ∈ s, 0 ≤ x ∧ ∀ t ∈ times, x ≤ t ∧ t - x < (window : ℚ)) →
      (∀ t ∈ times, 0 ≤ t) →
      List.Pairwise (· ≤ ·) times →
      (∀ t ∈ times, ∀ t' ∈ times, t - t' < (window : ℚ)) →
      s.length ≤ limit →
      (run_burst s times window limit).1.countP isAllowed
          = min times.length (limit - s.length) ∧
      (run_burst s times window limit).1.countP (fun r => !(isAllowed r))
          = times.length - min times.length (limit - s.length) ∧
      (run_burst s times window limit).2.length
          = s.length + min times.length (limit - s.length) ∧
      (∀ ra : ℤ, RLResult.denied ra ∈ (run_burst s times window limit).1 →
        ra ≤ window + 1) := by
  intro times
  induction times with
  | nil =>
    intro s hs hnn hsort hwin hlen
    simp [run_burst]
  | cons t ts ih =>
    intro s hs hnn hsort hwin hlen
    have hkeep : s.filter
        (fun x => !(decide (0 ≤ x) && decide (x ≤ t - (window : ℚ)))) = s := by
      apply List.filter_eq_self.mpr
      intro x hx
      have h1 := (hs x hx).1
      have h2 := ((hs x hx).2 t (List.mem_cons_self t ts)).2
      have hnle : ¬ (x ≤ t - (window : ℚ)) := by linarith
      simp [hnle]
    have hts_sub : ∀ t' ∈ ts, t' ∈ t :: ts := fun t' h => List.mem_cons_of_mem t h
    have hsort' := (List.pairwise_cons.mp hsort).2
    have hhead := (List.pairwise_cons.mp hsort).1
    simp only [run_burst]
    by_cases hcap : limit ≤ s.length
    · obtain ⟨ra, hstep, hra⟩ := sliding_window_check_denied s t window limit hkeep hcap
        (fun x hx => ⟨((hs x hx).2 t (List.mem_cons_self t ts)).1,
          ((hs x hx).2 t (List.mem_cons_self t ts)).2⟩)
      rw [hstep]
      dsimp only
      obtain ⟨ca, cd, flen, cra⟩ := ih s
        (fun x hx => ⟨(hs x hx).1, fun t' ht' => (hs x hx).2 t' (hts_sub t' ht')⟩)
        (fun t' ht' => hnn t' (hts_sub t' ht'))
        hsort'
        (fun a ha b hb => hwin a (hts_sub a ha) b (hts_sub b hb))
        hlen
      have hzero : limit - s.length = 0 := by omega
      refine ⟨?_, ?_, ?_, ?_⟩
      · rw [List.countP_cons, ca, hzero]
        simp [isAllowed]
      · rw [List.countP_cons, cd, hzero]
        simp [isAllowed]
      · rw [flen, hzero]
        simp
      · intro ra' hmem
        rcases List.mem_cons.mp hmem with h | h
        · cases h
          exact hra
        · exact cra ra' h
    · have hlt : s.length < limit := by omega
      rw [sliding_window_check_allowed s t window limit hkeep hlt]
      dsimp only
      obtain ⟨ca, cd, flen, cra⟩ := ih (s ++ [t])
        (by
          intro x hx
          rcases List.mem_append.mp hx with h | h
          · exact ⟨(hs x h).1, fun t' ht' => (hs x h).2 t' (hts_sub t' ht')⟩
          · have hxt : x = t := List.mem_singleton.mp h
            subst hxt
            exact ⟨hnn x (List.mem_cons_self x ts),
              fun t' ht' => ⟨hhead t' ht',
                hwin t' (hts_sub t' ht') x (List.mem_cons_self x ts)⟩⟩)
        (fun t' ht' => hnn t' (hts_sub t' ht'))
        hsort'
        (fun a ha b hb => hwin a (hts_sub a ha) b (hts_sub b hb))
        (by simpa using hlt)
      refine ⟨?_, ?_, ?_, ?_⟩
      · rw [List.countP_cons, ca]
        simp only [List.length_append, List.length_singleton, List.length_cons,
          List.length_nil, isAllowed, Bool.not_false, if_true]
        rw [Nat.min_def, Nat.min_def]
        split_ifs <;> omega
      · rw [List.countP_cons, cd]
        simp only [List.length_append, List.length_singleton, List.length_cons,
          List.length_nil, isAllowed, Bool.not_true, Bool.false_eq_true, if_false]
        rw [Nat.min_def, Nat.min_def]
        split_ifs <;> omega
      · rw [flen]
        simp only [List.length_append, List.length_singleton, List.length_cons,
          List.length_nil]
        rw [Nat.min_def, Nat.min_def]
        split_ifs <;> omega
      · intro ra' hmem
        rcases List.mem_cons.mp hmem with h | h
        · cases h
        · exact cra ra' h

/-- C7 as amended: the check purges the entries with timestamp at most
`now - W` (the purge is inclusive at the boundary), and when the remaining
count reaches the limit it denies with
`retry_after = int(W - (now - oldest)) + 1`, which is at most `W + 1` (it
equals `W + 1` when the oldest surviving entry coincides with `now`); the
rest of the claim stands: from an empty window, a sorted burst of
nonnegative request times all within `W` of one another admits exactly
`min(length, N)` requests and rejects the remaining ones, the recorded
window ends with exactly `min(length, N)` entries, and one check never
grows a window of at most `N` entries beyond `N`. -/
theorem c7_burst_admits_exactly_limit (times : List ℚ) (window : ℤ)
    (limit : ℕ)
    (hnn : ∀ t ∈ times, 0 ≤ t)
    (hsort : List.Pairwise (· ≤ ·) times)
    (hwin : ∀ t ∈ times, ∀ t' ∈ times, t - t' < (window : ℚ)) :
    (run_burst [] times window limit).1.countP isAllowed
        = min times.length limit ∧
    (run_burst [] times window limit).1.countP (fun r => !(isAllowed r))
        = times.length - min times.length limit ∧
    (∀ ra : ℤ, RLResult.denied ra ∈ (run_burst [] times window limit).1 →
      ra ≤ window + 1) ∧
    (run_burst [] times window limit).2.length = min times.length limit ∧
    (∀ entries now, entries.length ≤ limit →
      ((sliding_window_check entries now window limit).2).length ≤ limit) := by
  obtain ⟨ca, cd, flen, cra⟩ := run_burst_go window limit times []
    (by intro x hx; cases hx) hnn hsort hwin (by simp)
  refine ⟨by simpa using ca, by simpa using cd, cra, by simpa using flen, ?_⟩
  intro entries now hlen
  unfold sliding_window_check
  dsimp only
  by_cases hcap : (entries.filter
      (fun x => !(decide (0 ≤ x) && decide (x ≤ now - (window : ℚ))))).length ≥ limit
  · rw [if_pos hcap]
    calc (entries.filter _).length ≤ entries.length := List.length_filter_le _ _
      _ ≤ limit := hlen
  · rw [if_neg hcap]
    simp only [List.length_append, List.length_singleton]
    omega

/-- C7 witness: limit 2 over a 60-second window against the sorted burst at
times 0, 10, 20 — two admissions, one rejection with `retry_after ≤ 61`,
final window of two entries. -/
theorem c7_burst_admits_exactly_limit_witness :
    (run_burst [] [0, 10, 20] 60 2).1.countP isAllowed = min 3 2 ∧
    (run_burst [] [0, 10, 20] 60 2).1.countP (fun r => !(isAllowed r))
        = 3 - min 3 2 ∧
    (∀ ra : ℤ, RLResult.denied ra ∈ (run_burst [] [0, 10, 20] 60 2).1 →
      ra ≤ 60 + 1) ∧
    (run_burst [] [0, 10, 20] 60 2).2.length = min 3 2 ∧
    (∀ entries now, entries.length ≤ 2 →
      ((sliding_window_check entries now 60 2).2).length ≤ 2) :=
  c7_burst_admits_exactly_limit [0, 10, 20] 60 2
    (by intro t ht; fin_cases ht <;> norm_num)
    (by norm_num [List.pairwise_cons])
    (by intro t ht t' ht'; fin_cases ht <;> fin_cases ht' <;> norm_num)

end Teletran
